import Mathlib

/-!
Shallow embedding of the zynthian-ui sources under verification:

* `src/zyngine/zynthian_engine_audio_mixer.py` (class `zynmixer`)
* `src/zyngine/zynthian_engine_setbfree.py` (class `zynthian_engine_setbfree`)
* `src/zyngui/zynthian_gui_control.py` (class `zynthian_gui_control`)

Python's dynamically typed values that the wrapper merely stores and ferries
(never computes with) are embedded as `PVal`: integers, booleans and float
literals.  Floats are only loaded, stored, compared and passed through in this
code, never subjected to arithmetic, so exact rationals faithfully represent
the float values that occur.
-/

inductive PVal where
  | int (n : Int)
  | bool (b : Bool)
  | float (q : Rat)
  deriving DecidableEq, Repr

/-- Python exceptions that the embedded code can raise. -/
inductive PyErr where
  | typeError
  | runtimeError
  | keyError
  | indexError
  | attributeError
  deriving DecidableEq, Repr

/-! ### Python dict on `Nat` keys (the per-channel `learned_cc` tables)

A Python dict keyed by small ints, embedded as an association list in
insertion order: assignment to an existing key updates it in place,
assignment to a fresh key appends, `pop` removes the key. -/

def dget : List (Nat × Nat) → Nat → Option Nat
  | [], _ => none
  | p :: rest, k => if p.1 = k then some p.2 else dget rest k

def dset : List (Nat × Nat) → Nat → Nat → List (Nat × Nat)
  | [], k, v => [(k, v)]
  | p :: rest, k, v => if p.1 = k then (k, v) :: rest else p :: dset rest k v

def dpop : List (Nat × Nat) → Nat → List (Nat × Nat)
  | [], _ => []
  | p :: rest, k => if p.1 = k then rest else p :: dpop rest k

/-- Replace the element at index `i` by `f` of it (out-of-range: unchanged). -/
def listModify {α : Type} (f : α → α) : Nat → List α → List α
  | _, [] => []
  | 0, a :: as => f a :: as
  | n + 1, a :: as => a :: listModify f n as

namespace Zynmixer

/-! ### The cached controllers

`zynthian_controller` is imported by the mixer wrapper but its module is not
part of the sources under verification.  Modelled from the spec: the wrapper
"only marshals calls and caches last-known values for snapshot persistence",
so a controller caches its current `value`; `value_default` backs
`reset_value`.  The remaining construction metadata (midi_chan, value_min,
is_integer, graph_path, ...) is not consulted by any claim and is omitted. -/

structure ZCtrl where
  value : PVal
  value_default : PVal
  deriving DecidableEq, Repr

/-- Modelled from the spec: `zynthian_controller.set_value(v, send)` caches
`v`.  The `send` path only marshals the value back out to the engine (the
external native library); it does not touch the cache. -/
def set_value (z : ZCtrl) (v : PVal) : ZCtrl :=
  { z with value := v }

/-- Modelled from the spec: `zynthian_controller.reset_value()` restores the
default value. -/
def reset_value (z : ZCtrl) : ZCtrl :=
  { z with value := z.value_default }

/-- One channel strip of the cache: the dict built in `zynmixer.__init__`
with exactly the six symbols `level`, `balance`, `mute`, `solo`, `mono`,
`phase`. -/
structure Strip where
  level : ZCtrl
  balance : ZCtrl
  mute : ZCtrl
  solo : ZCtrl
  mono : ZCtrl
  phase : ZCtrl
  deriving DecidableEq, Repr

/-! ### The external native library

`libzynmixer.so` is an external artifact: its DSP state is opaque.  We model
it by its per-channel query functions (what the `get*` entry points currently
report) plus the trace `calls` of the set/toggle invocations the wrapper has
marshalled to it.  `get_solo` mirrors the attribute of that name that
`toggle_solo` reads from the library object (distinct from `getSolo`): the
library binary is not part of the sources, so both attributes are modelled
abstractly. -/

inductive LibCall where
  | setLevel (channel : Nat) (v : PVal)
  | setBalance (channel : Nat) (v : PVal)
  | setMute (channel : Nat) (v : PVal)
  | setSolo (channel : Nat) (v : PVal)
  | setMono (channel : Nat) (v : PVal)
  | setPhase (channel : Nat) (v : PVal)
  | toggleMute (channel : Nat)
  | togglePhase (channel : Nat)
  deriving DecidableEq, Repr

structure LibState where
  maxChannels : Nat
  level : Nat → Rat
  balance : Nat → Rat
  mute : Nat → Int
  solo : Nat → Int
  mono : Nat → Int
  phase : Nat → Int
  get_solo : Nat → Int
  dpm : Nat → Nat → Rat
  dpmHold : Nat → Nat → Rat
  calls : List LibCall

/-- The state of a `zynmixer` instance.  `lib` is `self.lib_zynmixer`
(`none` when the dynamic load failed), `MAX_NUM_CHANNELS` the attribute set
at the end of `__init__`, `midi_learn_cb` records whether a learn callback
is registered (the callback itself is opaque GUI code). -/
structure Mixer where
  lib : Option LibState
  zctrls : List Strip
  learned_cc : List (List (Nat × Nat))
  midi_learn_zctrl : Option Nat
  midi_learn_cb : Bool
  MAX_NUM_CHANNELS : Nat

/-- Marshal one call to the native library (`if self.lib_zynmixer:` guard). -/
def pushCall (m : Mixer) (c : LibCall) : Mixer :=
  match m.lib with
  | some L => { m with lib := some { L with calls := L.calls ++ [c] } }
  | none => m

/-- The library call trace of a mixer (empty when no library is loaded). -/
def libCalls (m : Mixer) : List LibCall :=
  match m.lib with
  | some L => L.calls
  | none => []

/-! ### Accessors (each has a library-absent fallback branch) -/

def getLevelL (lib : Option LibState) (channel : Nat) : PVal :=
  match lib with
  | some L => PVal.float (L.level channel)
  | none => PVal.int 0

def getBalanceL (lib : Option LibState) (channel : Nat) : PVal :=
  match lib with
  | some L => PVal.float (L.balance channel)
  | none => PVal.int 0

def getMuteL (lib : Option LibState) (channel : Nat) : PVal :=
  match lib with
  | some L => PVal.int (L.mute channel)
  | none => PVal.bool true

def getSoloL (lib : Option LibState) (channel : Nat) : PVal :=
  match lib with
  | some L => PVal.bool (L.solo channel == 1)
  | none => PVal.bool true

def getMonoL (lib : Option LibState) (channel : Nat) : PVal :=
  match lib with
  | some L => PVal.bool (L.mono channel == 1)
  | none => PVal.bool true

def getPhaseL (lib : Option LibState) (channel : Nat) : PVal :=
  match lib with
  | some L => PVal.int (L.phase channel)
  | none => PVal.bool true

def getMaxChannelsL (lib : Option LibState) : Nat :=
  match lib with
  | some L => L.maxChannels
  | none => 0

def get_solo (m : Mixer) (channel : Nat) : PVal := getSoloL m.lib channel

def get_max_channels (m : Mixer) : Nat := getMaxChannelsL m.lib

/-- The strip dict built for channel `i` in `__init__`: initial values read
through the accessors (`self.get_level(i)` etc., before `MAX_NUM_CHANNELS`
exists), defaults from the construction dictionaries (0.8 for level, 0.0 for
balance, 0 for the four toggles). -/
def initStrip (lib : Option LibState) (i : Nat) : Strip :=
  { level := { value := getLevelL lib i, value_default := PVal.float ((4 : Rat) / 5) }
    balance := { value := getBalanceL lib i, value_default := PVal.float 0 }
    mute := { value := getMuteL lib i, value_default := PVal.int 0 }
    solo := { value := getSoloL lib i, value_default := PVal.int 0 }
    mono := { value := getMonoL lib i, value_default := PVal.int 0 }
    phase := { value := getPhaseL lib i, value_default := PVal.int 0 } }

/-- Constructor `zynmixer.__init__`.  `loadResult` is the outcome of
`ctypes.cdll.LoadLibrary` (the `except` branch leaves `lib_zynmixer = None`).
The strip cache is built for `get_max_channels() + 1` channels and
`learned_cc` gets 16 empty per-channel dicts; the final statement
`self.MAX_NUM_CHANNELS = self.lib_zynmixer.getMaxChannels()` is executed
unconditionally, so with `lib_zynmixer = None` the attribute access raises
`AttributeError` and construction fails. -/
def init (loadResult : Option LibState) : Except PyErr Mixer :=
  let zctrls := (List.range (getMaxChannelsL loadResult + 1)).map (initStrip loadResult)
  let learned := List.replicate 16 ([] : List (Nat × Nat))
  match loadResult with
  | none => Except.error PyErr.attributeError
  | some L =>
      Except.ok
        { lib := some L
          zctrls := zctrls
          learned_cc := learned
          midi_learn_zctrl := none
          midi_learn_cb := false
          MAX_NUM_CHANNELS := L.maxChannels }

/-! ### Setters, toggles, reset

Every setter first clamps `channel` to `MAX_NUM_CHANNELS`, forwards to the
native library when it is loaded, and (with `update`) caches the value in the
corresponding strip controller.  `send_update` only invokes the external
processor callback, which lives outside the mixer object and is therefore
not part of the modelled state. -/

def clampChannel (m : Mixer) (channel : Nat) : Nat :=
  if m.MAX_NUM_CHANNELS ≤ channel then m.MAX_NUM_CHANNELS else channel

def set_level (m : Mixer) (channel : Nat) (level : PVal) (update : Bool) : Mixer :=
  let ch := clampChannel m channel
  let m1 := pushCall m (LibCall.setLevel ch level)
  if update then
    { m1 with zctrls := listModify (fun s => { s with level := set_value s.level level }) ch m1.zctrls }
  else m1

def set_balance (m : Mixer) (channel : Nat) (balance : PVal) (update : Bool) : Mixer :=
  let ch := clampChannel m channel
  let m1 := pushCall m (LibCall.setBalance ch balance)
  if update then
    { m1 with zctrls := listModify (fun s => { s with balance := set_value s.balance balance }) ch m1.zctrls }
  else m1

/-- Setter `set_mute` guards its clamp with `channel is not None`; a `Nat` channel
is always an int, so the guard is satisfied here.  (Its Python default is
`update=False`; `update` is explicit in the embedding.) -/
def set_mute (m : Mixer) (channel : Nat) (mute : PVal) (update : Bool) : Mixer :=
  let ch := clampChannel m channel
  let m1 := pushCall m (LibCall.setMute ch mute)
  if update then
    { m1 with zctrls := listModify (fun s => { s with mute := set_value s.mute mute }) ch m1.zctrls }
  else m1

def set_solo (m : Mixer) (channel : Nat) (solo : PVal) (update : Bool) : Mixer :=
  let ch := clampChannel m channel
  let m1 := pushCall m (LibCall.setSolo ch solo)
  if update then
    { m1 with zctrls := listModify (fun s => { s with solo := set_value s.solo solo }) ch m1.zctrls }
  else m1

def set_mono (m : Mixer) (channel : Nat) (mono : PVal) (update : Bool) : Mixer :=
  let ch := clampChannel m channel
  let m1 := pushCall m (LibCall.setMono ch mono)
  if update then
    { m1 with zctrls := listModify (fun s => { s with mono := set_value s.mono mono }) ch m1.zctrls }
  else m1

def set_phase (m : Mixer) (channel : Nat) (phase : PVal) (update : Bool) : Mixer :=
  let ch := clampChannel m channel
  let m1 := pushCall m (LibCall.setPhase ch phase)
  if update then
    { m1 with zctrls := listModify (fun s => { s with phase := set_value s.phase phase }) ch m1.zctrls }
  else m1

def toggle_mute (m : Mixer) (channel : Nat) : Mixer :=
  let ch := clampChannel m channel
  pushCall m (LibCall.toggleMute ch)

/-- Toggle `toggle_phase` with `update` re-reads `self.lib_zynmixer.getPhase(channel)`
into the cache; with no library loaded that attribute access on `None`
raises `AttributeError`. -/
def toggle_phase (m : Mixer) (channel : Nat) (update : Bool) : Except PyErr Mixer :=
  let ch := clampChannel m channel
  let m1 := pushCall m (LibCall.togglePhase ch)
  if update then
    match m1.lib with
    | some L =>
        Except.ok { m1 with
          zctrls := listModify (fun s => { s with phase := set_value s.phase (PVal.int (L.phase ch)) }) ch m1.zctrls }
    | none => Except.error PyErr.attributeError
  else Except.ok m1

/-- Toggle `toggle_solo` inverts via `set_solo` (whose Python default `update=True`
applies), then with `update` re-reads `self.lib_zynmixer.get_solo(channel)`
into the cache. -/
def toggle_solo (m : Mixer) (channel : Nat) (update : Bool) : Except PyErr Mixer :=
  let ch := clampChannel m channel
  let m1 :=
    match m.lib with
    | some L =>
        if L.solo ch == 1 then set_solo m ch (PVal.bool false) true
        else set_solo m ch (PVal.bool true) true
    | none => m
  if update then
    match m1.lib with
    | some L =>
        Except.ok { m1 with
          zctrls := listModify (fun s => { s with solo := set_value s.solo (PVal.int (L.get_solo ch)) }) ch m1.zctrls }
    | none => Except.error PyErr.attributeError
  else Except.ok m1

/-- Toggle `toggle_mono` inverts via `set_mono` (Python default `update=True`), then
with `update` re-reads `self.lib_zynmixer.getMono(channel)` into the cache. -/
def toggle_mono (m : Mixer) (channel : Nat) (update : Bool) : Except PyErr Mixer :=
  let ch := clampChannel m channel
  let m1 :=
    match m.lib with
    | some L =>
        if L.mono ch == 1 then set_mono m ch (PVal.bool false) true
        else set_mono m ch (PVal.bool true) true
    | none => m
  if update then
    match m1.lib with
    | some L =>
        Except.ok { m1 with
          zctrls := listModify (fun s => { s with mono := set_value s.mono (PVal.int (L.mono ch)) }) ch m1.zctrls }
    | none => Except.error PyErr.attributeError
  else Except.ok m1

/-- Reset `reset(channel)` (the `isinstance(channel, int)` guard holds for a `Nat`
argument): clamp, then `reset_value` each of the six strip controllers. -/
def reset (m : Mixer) (channel : Nat) : Mixer :=
  let ch := clampChannel m channel
  { m with zctrls := listModify (fun s =>
      { level := reset_value s.level
        balance := reset_value s.balance
        mute := reset_value s.mute
        mono := reset_value s.mono
        solo := reset_value s.solo
        phase := reset_value s.phase }) ch m.zctrls }

/-! ### Snapshot state management

`get_state` keys the snapshot dict by the strings `'chan_{:02d}'.format(chan)`
(for `chan < get_max_channels()`) and `'main'`; distinct channels yield
distinct strings, which the constructor-based `SKey` embedding preserves.
`zynthian_controller.get_state(full)` is not part of the sources; modelled
from the spec and `get_state`'s own docstring ("True to get state of all
parameters or false for off-default values"): with `full` it reports the
cached value, otherwise only an off-default value.  The modelled controller
state dictionary carries the `value` entry and no `midi_learn_*` entries. -/

inductive SKey where
  | chan (n : Nat)
  | main
  deriving DecidableEq, Repr

/-- The per-strip slice of a snapshot: for each symbol, the controller state
present in the snapshot dict, if any. -/
structure StripSnap where
  level : Option PVal
  balance : Option PVal
  mute : Option PVal
  solo : Option PVal
  mono : Option PVal
  phase : Option PVal
  deriving DecidableEq, Repr

/-- Modelled from the spec: a controller's `get_state(full)` (the `if
ctrl_state:` truthiness test in `get_state` drops falsy results). -/
def snapOfCtrl (full : Bool) (z : ZCtrl) : Option PVal :=
  if full then some z.value
  else if z.value ≠ z.value_default then some z.value else none

def snapOfStrip (full : Bool) (s : Strip) : StripSnap :=
  { level := snapOfCtrl full s.level
    balance := snapOfCtrl full s.balance
    mute := snapOfCtrl full s.mute
    solo := snapOfCtrl full s.solo
    mono := snapOfCtrl full s.mono
    phase := snapOfCtrl full s.phase }

/-- The `if chan_state:` truthiness test of `get_state`. -/
def snapNonempty (s : StripSnap) : Bool :=
  s.level.isSome || s.balance.isSome || s.mute.isSome || s.solo.isSome ||
    s.mono.isSome || s.phase.isSome

def skeyOf (m : Mixer) (chan : Nat) : SKey :=
  if chan < get_max_channels m then SKey.chan chan else SKey.main

def dummyStrip : Strip :=
  { level := { value := PVal.int 0, value_default := PVal.int 0 }
    balance := { value := PVal.int 0, value_default := PVal.int 0 }
    mute := { value := PVal.int 0, value_default := PVal.int 0 }
    solo := { value := PVal.int 0, value_default := PVal.int 0 }
    mono := { value := PVal.int 0, value_default := PVal.int 0 }
    phase := { value := PVal.int 0, value_default := PVal.int 0 } }

/-- Snapshot `zynmixer.get_state(full)`: one snapshot entry per channel of
`range(get_max_channels() + 1)` whose channel state is non-empty, in channel
order (dict insertion order). -/
def get_state (m : Mixer) (full : Bool) : List (SKey × StripSnap) :=
  (List.range (get_max_channels m + 1)).filterMap (fun chan =>
    let snap := snapOfStrip full (m.zctrls.getD chan dummyStrip)
    if snapNonempty snap then some (skeyOf m chan, snap) else none)

def dlookupS (st : List (SKey × StripSnap)) (k : SKey) : Option StripSnap :=
  (st.find? (fun e => e.1 == k)).map (fun e => e.2)

/-- One symbol's restore step in `set_state`: `state[key][symbol]` present
with a value sets it (`set_value(..., True)`; the send side only marshals to
the native library); a `KeyError` on either lookup falls into the bare
`except`, which resets the controller when `full`. -/
def applyCtrl (entry : Option PVal) (full : Bool) (z : ZCtrl) : ZCtrl :=
  match entry with
  | some v => set_value z v
  | none => if full then reset_value z else z

def applyStrip (snap : Option StripSnap) (full : Bool) (s : Strip) : Strip :=
  { level := applyCtrl (snap.bind (fun t => t.level)) full s.level
    balance := applyCtrl (snap.bind (fun t => t.balance)) full s.balance
    mute := applyCtrl (snap.bind (fun t => t.mute)) full s.mute
    solo := applyCtrl (snap.bind (fun t => t.solo)) full s.solo
    mono := applyCtrl (snap.bind (fun t => t.mono)) full s.mono
    phase := applyCtrl (snap.bind (fun t => t.phase)) full s.phase }

/-- The `for chan, zctrls in enumerate(self.zctrls)` loop of `set_state`,
with `chan` carried explicitly. -/
def setStateStrips (m : Mixer) (st : List (SKey × StripSnap)) (full : Bool) :
    Nat → List Strip → List Strip
  | _, [] => []
  | chan, s :: rest =>
      applyStrip (dlookupS st (skeyOf m chan)) full s ::
        setStateStrips m st full (chan + 1) rest

def set_state (m : Mixer) (st : List (SKey × StripSnap)) (full : Bool) : Mixer :=
  { m with zctrls := setStateStrips m st full 0 m.zctrls }

/-! ### MIDI learn -/

/-- Operation `disable_midi_learn`: clear the pending controller and invoke the
registered callback (the returned flag records whether it was invoked). -/
def disable_midi_learn (m : Mixer) : Mixer × Bool :=
  ({ m with midi_learn_zctrl := none }, m.midi_learn_cb)

def enable_midi_learn (m : Mixer) (zctrl : Nat) : Mixer :=
  { m with midi_learn_zctrl := some zctrl }

def set_midi_learn_cb (m : Mixer) : Mixer :=
  { m with midi_learn_cb := true }

/-- Result of `midi_control_change`: the new mixer state, the values
forwarded to bound controllers via their `midi_control_change`, and whether
the learn callback fired. -/
structure MccResult where
  mixer : Mixer
  dispatched : List (Nat × PVal)
  cbInvoked : Bool

/-- Handler `zynmixer.midi_control_change(chan, ccnum, val)`.  `single` is the
module-global `zynthian_gui_config.midi_single_active_channel`.  With a
controller pending learn it is bound at `learned_cc[chan][ccnum]` and learn
is disabled; otherwise the value is forwarded to the controller(s) looked up
in `learned_cc` (a missing slot raises `KeyError`, swallowed by the
`try/except pass`). -/
def midi_control_change (single : Bool) (m : Mixer) (chan : Fin 16)
    (ccnum : Nat) (val : PVal) : MccResult :=
  match m.midi_learn_zctrl with
  | some z =>
      let m1 := { m with
        learned_cc := m.learned_cc.set chan.val (dset (m.learned_cc.getD chan.val []) ccnum z) }
      let r := disable_midi_learn m1
      { mixer := r.1, dispatched := [], cbInvoked := r.2 }
  | none =>
      if single then
        { mixer := m
          dispatched := (List.range 16).filterMap (fun ch =>
            (dget (m.learned_cc.getD ch []) ccnum).map (fun z => (z, val)))
          cbInvoked := false }
      else
        { mixer := m
          dispatched :=
            match dget (m.learned_cc.getD chan.val []) ccnum with
            | some z => [(z, val)]
            | none => []
          cbInvoked := false }

/-! ### `midi_unlearn` and Python subscripting

`midi_unlearn` iterates `for chan in self.learned_cc`.  `learned_cc` is a
*list* (of 16 per-channel dicts), so the loop variable `chan` is bound to
each per-channel dict in turn, and the loop body's first evaluation,
`self.learned_cc[chan]`, subscripts a list with a dict — which raises
`TypeError` in Python.  The embedding models list subscripting with a
dynamically typed subscript to capture this. -/

inductive PySub where
  | int (n : Nat)
  | dict (d : List (Nat × Nat))

def listSubscript (l : List (List (Nat × Nat))) : PySub → Except PyErr (List (Nat × Nat))
  | PySub.int n =>
      match l.get? n with
      | some d => Except.ok d
      | none => Except.error PyErr.indexError
  | PySub.dict _ => Except.error PyErr.typeError

/-- The inner `for cc in self.learned_cc[chan]` loop body over an already
obtained per-channel dict `d`: iterate the keys captured at loop entry,
popping a key whose binding equals `zctrl`; CPython's dict iterator raises
`RuntimeError` at the next step after the dict changed size. -/
def unlearnScan (z : Nat) : List Nat → List (Nat × Nat) → Bool → Except PyErr (List (Nat × Nat))
  | [], d, mutated =>
      if mutated then Except.error PyErr.runtimeError else Except.ok d
  | cc :: rest, d, mutated =>
      if mutated then Except.error PyErr.runtimeError
      else if dget d cc == some z then unlearnScan z rest (dpop d cc) true
      else unlearnScan z rest d false

/-- Operation `zynmixer.midi_unlearn(zctrl)`: the outer loop draws each per-channel
dict from the `learned_cc` list and the body subscripts `self.learned_cc`
with it; only if that subscript succeeded would the inner scan run. -/
def midi_unlearn (m : Mixer) (zctrl : Nat) : Except PyErr Mixer :=
  (m.learned_cc.foldlM (fun (acc : List (List (Nat × Nat))) chan => do
      let d ← listSubscript acc (PySub.dict chan)
      let d2 ← unlearnScan zctrl (d.map (fun (p : Nat × Nat) => p.1)) d false
      pure (acc.map (fun e => if e == d then d2 else e))) m.learned_cc).map
    (fun lc => { m with learned_cc := lc })

end Zynmixer

namespace Setbfree

/-! ### `zynthian_engine_setbfree` (src/zyngine/zynthian_engine_setbfree.py)

`map_list` is a declarative table: five screens, each a list of controller
entries `(name, cc, default, options)` where default and options are either
ints or strings. -/

inductive CtrlOpt where
  | int (n : Int)
  | str (s : String)
  deriving DecidableEq, Repr

structure CtrlEntry where
  name : String
  cc : Nat
  dflt : CtrlOpt
  opts : CtrlOpt
  deriving DecidableEq, Repr

structure Screen where
  ctrls : List CtrlEntry
  second : Nat
  title : String
  deriving DecidableEq, Repr

def map_list : List Screen :=
  [ { ctrls :=
        [ { name := "volume", cc := 1, dflt := CtrlOpt.int 96, opts := CtrlOpt.int 127 }
        , { name := "percussion on/off", cc := 80, dflt := CtrlOpt.str "off", opts := CtrlOpt.str "off|on" }
        , { name := "rotary speed", cc := 91, dflt := CtrlOpt.str "off", opts := CtrlOpt.str "off|chr|trm|chr" }
        , { name := "vibrato on/off", cc := 92, dflt := CtrlOpt.str "off", opts := CtrlOpt.str "off|on" } ]
      second := 0
      title := "main" }
  , { ctrls :=
        [ { name := "16", cc := 70, dflt := CtrlOpt.str "8", opts := CtrlOpt.str "0|1|2|3|4|5|6|7|8" }
        , { name := "5 1/3", cc := 71, dflt := CtrlOpt.str "8", opts := CtrlOpt.str "0|1|2|3|4|5|6|7|8" }
        , { name := "8", cc := 72, dflt := CtrlOpt.str "8", opts := CtrlOpt.str "0|1|2|3|4|5|6|7|8" }
        , { name := "4", cc := 73, dflt := CtrlOpt.str "8", opts := CtrlOpt.str "0|1|2|3|4|5|6|7|8" } ]
      second := 0
      title := "drawbars low" }
  , { ctrls :=
        [ { name := "2 2/3", cc := 74, dflt := CtrlOpt.str "8", opts := CtrlOpt.str "0|1|2|3|4|5|6|7|8" }
        , { name := "2", cc := 75, dflt := CtrlOpt.str "8", opts := CtrlOpt.str "0|1|2|3|4|5|6|7|8" }
        , { name := "1 3/5", cc := 76, dflt := CtrlOpt.str "8", opts := CtrlOpt.str "0|1|2|3|4|5|6|7|8" }
        , { name := "1 1/3", cc := 77, dflt := CtrlOpt.str "8", opts := CtrlOpt.str "0|1|2|3|4|5|6|7|8" } ]
      second := 0
      title := "drawbars hi" }
  , { ctrls :=
        [ { name := "drawbar 1", cc := 78, dflt := CtrlOpt.str "8", opts := CtrlOpt.str "0|1|2|3|4|5|6|7|8" }
        , { name := "vibrato selector", cc := 83, dflt := CtrlOpt.str "c3", opts := CtrlOpt.str "v1|v2|v3|c1|c2|c3" }
        , { name := "percussion decay", cc := 81, dflt := CtrlOpt.str "slow", opts := CtrlOpt.str "slow|fast" }
        , { name := "percussion harmonic", cc := 82, dflt := CtrlOpt.str "3rd", opts := CtrlOpt.str "2nd|3rd" } ]
      second := 0
      title := "percussion & vibrato" }
  , { ctrls :=
        [ { name := "overdrive on/off", cc := 23, dflt := CtrlOpt.str "off", opts := CtrlOpt.str "off|on" }
        , { name := "overdrive character", cc := 93, dflt := CtrlOpt.int 64, opts := CtrlOpt.int 127 }
        , { name := "overdrive inputgain", cc := 21, dflt := CtrlOpt.int 64, opts := CtrlOpt.int 127 }
        , { name := "overdrive outputgain", cc := 22, dflt := CtrlOpt.int 64, opts := CtrlOpt.int 127 } ]
      second := 0
      title := "overdrive" } ]

/-- Assignment `default_ctrl_config = map_list[0][0]`. -/
def default_ctrl_config : List CtrlEntry :=
  (map_list.get ⟨0, by decide⟩).ctrls

/-! ### `load_pgm_list`

The line pattern is the regular expression
`^([\d]+)[\s]*\{[\s]*name\=\"([^\"]+)\"` applied with `re.match`.  Because
`\d` and `\s` are disjoint character classes, the literal `{` is in neither,
and `[^"]+` is a greedy run ended by the required `"`; the regex engine's
backtracking can never rescue a failed greedy match here, so the deterministic
longest-munch scan below is equivalent.  Character classes are modelled over
ASCII (`\d` as `0`-`9`, `\s` as the ASCII whitespace characters), the range
the program-bank files use. -/

def isPySpace (c : Char) : Bool :=
  c == ' ' || c == '\t' || c == '\n' || c == '\x0d' || c == '\x0b' || c == '\x0c'

def digitsToNat (ds : List Char) : Nat :=
  ds.foldl (fun acc c => 10 * acc + (c.toNat - '0'.toNat)) 0

/-- Match one line against the pattern; on success return the leading
integer (`int(m.group(1))`) and the quoted name (`m.group(2)`). -/
def matchPgmLine (cs : List Char) : Option (Nat × List Char) :=
  let ds := cs.takeWhile Char.isDigit
  if ds.isEmpty then none
  else
    let r1 := (cs.dropWhile Char.isDigit).dropWhile isPySpace
    match r1 with
    | '{' :: r2 =>
        let r3 := r2.dropWhile isPySpace
        if r3.take 6 = ['n', 'a', 'm', 'e', '=', '"'] then
          let r4 := r3.drop 6
          let title := r4.takeWhile (fun c => !(c == '"'))
          let r5 := r4.dropWhile (fun c => !(c == '"'))
          if title.isEmpty then none
          else if r5.isEmpty then none
          else some (digitsToNat ds, title)
        else none
    | _ => none

/-- The `for line in lines` loop of `load_pgm_list`, with the emitted-tuple
counter `i` carried explicitly: a matching line with `prg = int(group(1)) - 1`
non-negative appends `(i, [0, 0, prg], title)`. -/
def pgmLoop : List (List Char) → Nat → List (Nat × List Int × List Char)
  | [], _ => []
  | l :: rest, i =>
      match matchPgmLine l with
      | some (n, title) =>
          if 1 ≤ n then (i, [0, 0, (n : Int) - 1], title) :: pgmLoop rest (i + 1)
          else pgmLoop rest i
      | none => pgmLoop rest i

/-- Parser `zynthian_engine_setbfree.load_pgm_list`, over the list of lines that
`f.readlines()` yields (each line keeps its trailing newline; the pattern is
a prefix match, so that newline is immaterial). -/
def load_pgm_list (lines : List (List Char)) : List (Nat × List Int × List Char) :=
  pgmLoop lines 0

end Setbfree

namespace GuiControl

/-! ### `zynthian_gui_control` page navigation
(src/zyngui/zynthian_gui_control.py)

`previous_page` and `next_page` compute the index handed to `select`;
indices are Python ints, embedded as `Int`. -/

def previous_page (index : Int) (wrap : Bool) : Int :=
  let i := index - 1
  if i < 0 then 0 else i

def next_page (listLen : Nat) (index : Int) (wrap : Bool) : Int :=
  let i := index + 1
  if (listLen : Int) ≤ i then
    if wrap then 0 else (listLen : Int) - 1
  else i

end GuiControl

/-! ## Supporting lemmas -/

namespace Setbfree

/-- Matching lines (with their extracted program number and title) that pass
the `prg >= 0` filter, in line order. -/
def keptMatches (lines : List (List Char)) : List (Nat × List Char) :=
  lines.filterMap (fun l =>
    match matchPgmLine l with
    | some (n, t) => if 1 ≤ n then some (n, t) else none
    | none => none)

theorem pgmLoop_eq_enumFrom (lines : List (List Char)) (i : Nat) :
    pgmLoop lines i =
      (List.enumFrom i (keptMatches lines)).map
        (fun p => (p.1, [0, 0, (p.2.1 : Int) - 1], p.2.2)) := by
  induction lines generalizing i with
  | nil => simp [pgmLoop, keptMatches]
  | cons l rest ih =>
      simp only [pgmLoop, keptMatches, List.filterMap_cons]
      cases h : matchPgmLine l with
      | none => simpa [keptMatches] using ih i
      | some p =>
          by_cases h1 : 1 ≤ p.1
          · simp only [h1, if_pos]
            rw [ih (i + 1)]
            simp [keptMatches, List.enumFrom]
          · simp only [h1, if_neg, if_false]
            simpa [keptMatches, h1] using ih i

end Setbfree

namespace Zynmixer

theorem listModify_length {α : Type} (f : α → α) (i : Nat) (l : List α) :
    (listModify f i l).length = l.length := by
  induction l generalizing i with
  | nil => cases i <;> rfl
  | cons a as ih =>
      cases i with
      | zero => rfl
      | succ n => simpa [listModify] using ih n

theorem listModify_getD_self {α : Type} (f : α → α) (i : Nat) (l : List α)
    (d : α) (h : i < l.length) :
    (listModify f i l).getD i d = f (l.getD i d) := by
  induction l generalizing i with
  | nil => simp at h
  | cons a as ih =>
      cases i with
      | zero => rfl
      | succ n =>
          simp only [listModify, List.getD_cons_succ]
          exact ih n (by simpa using h)

theorem listModify_getD_ne {α : Type} (f : α → α) (i j : Nat) (l : List α)
    (d : α) (h : j ≠ i) :
    (listModify f i l).getD j d = l.getD j d := by
  induction l generalizing i j with
  | nil => cases i <;> rfl
  | cons a as ih =>
      cases i with
      | zero =>
          cases j with
          | zero => exact absurd rfl h
          | succ k => rfl
      | succ n =>
          cases j with
          | zero => rfl
          | succ k =>
              simp only [listModify, List.getD_cons_succ]
              exact ih n k (fun hk => h (by simp [hk]))

theorem dget_dset_self (d : List (Nat × Nat)) (k v : Nat) :
    dget (dset d k v) k = some v := by
  induction d with
  | nil => simp [dset, dget]
  | cons p rest ih =>
      by_cases hp : p.1 = k
      · simp [dset, dget, hp]
      · simp [dset, dget, hp, ih]

theorem dget_dset_ne (d : List (Nat × Nat)) (k v k' : Nat) (h : k' ≠ k) :
    dget (dset d k v) k' = dget d k' := by
  induction d with
  | nil =>
      have hk : ¬ (k = k') := fun e => h e.symm
      simp [dset, dget, hk]
  | cons p rest ih =>
      by_cases hp : p.1 = k
      · have hk : ¬ (k = k') := fun e => h e.symm
        simp [dset, dget, hp, hk]
      · by_cases hq : p.1 = k'
        · simp [dset, dget, hp, hq, h]
        · simp [dset, dget, hp, hq, ih]

theorem getD_set_self {α : Type} (l : List α) (i : Nat) (a d : α)
    (h : i < l.length) : (l.set i a).getD i d = a := by
  induction l generalizing i with
  | nil => simp at h
  | cons b bs ih =>
      cases i with
      | zero => rfl
      | succ n =>
          simp only [List.set_cons_succ, List.getD_cons_succ]
          exact ih n (by simpa using h)

theorem getD_set_ne {α : Type} (l : List α) (i j : Nat) (a d : α)
    (h : j ≠ i) : (l.set i a).getD j d = l.getD j d := by
  induction l generalizing i j with
  | nil => cases i <;> rfl
  | cons b bs ih =>
      cases i with
      | zero =>
          cases j with
          | zero => exact absurd rfl h
          | succ k => rfl
      | succ n =>
          cases j with
          | zero => rfl
          | succ k =>
              simp only [List.set_cons_succ, List.getD_cons_succ]
              exact ih n k (fun hk => h (by simp [hk]))

/-- The cache strip of channel `channel` (`self.zctrls[channel]`). -/
def stripAt (m : Mixer) (channel : Nat) : Strip :=
  m.zctrls.getD channel dummyStrip

/-! ### Concrete fixture used by witnesses and counterexamples -/

def lib0 : LibState :=
  { maxChannels := 2
    level := fun _ => 0
    balance := fun _ => 0
    mute := fun _ => 0
    solo := fun _ => 0
    mono := fun _ => 0
    phase := fun _ => 0
    get_solo := fun _ => 0
    dpm := fun _ _ => 0
    dpmHold := fun _ _ => 0
    calls := [] }

/-- The mixer obtained by constructing `zynmixer` against `lib0`. -/
def mixer0 : Mixer :=
  { lib := some lib0
    zctrls := (List.range (getMaxChannelsL (some lib0) + 1)).map (initStrip (some lib0))
    learned_cc := List.replicate 16 ([] : List (Nat × Nat))
    midi_learn_zctrl := none
    midi_learn_cb := false
    MAX_NUM_CHANNELS := lib0.maxChannels }

theorem init_lib0 : init (some lib0) = Except.ok mixer0 := rfl

end Zynmixer

/-! ## Claims -/

/-- Claim C10: the setBfree `map_list` is a well-formed MIDI CC mapping:
five screens, every controller entry carries a CC number in `0..127`, the CC
numbers are pairwise distinct across the whole table, and
`default_ctrl_config` is exactly the controller list of the first screen,
titled `main`. -/
theorem C10_map_list_wellformed :
    Setbfree.map_list.length = 5 ∧
    ((Setbfree.map_list.map (fun s => s.ctrls.map (fun e => e.cc))).flatten).all
        (fun c => decide (c ≤ 127)) = true ∧
    ((Setbfree.map_list.map (fun s => s.ctrls.map (fun e => e.cc))).flatten).Nodup ∧
    (Setbfree.map_list.get ⟨0, by decide⟩).title = "main" ∧
    Setbfree.default_ctrl_config =
      [ { name := "volume", cc := 1, dflt := Setbfree.CtrlOpt.int 96,
          opts := Setbfree.CtrlOpt.int 127 }
      , { name := "percussion on/off", cc := 80, dflt := Setbfree.CtrlOpt.str "off",
          opts := Setbfree.CtrlOpt.str "off|on" }
      , { name := "rotary speed", cc := 91, dflt := Setbfree.CtrlOpt.str "off",
          opts := Setbfree.CtrlOpt.str "off|chr|trm|chr" }
      , { name := "vibrato on/off", cc := 92, dflt := Setbfree.CtrlOpt.str "off",
          opts := Setbfree.CtrlOpt.str "off|on" } ] := by
  refine ⟨rfl, rfl, ?_, rfl, rfl⟩
  decide

/-- Claim C9: `previous_page` always selects `max(index - 1, 0)` regardless
of its `wrap` argument; `next_page` selects `index + 1` except at the last
entry, where it wraps to `0` when `wrap` is true and stays at the last entry
when `wrap` is false; on a non-empty list a selected index stays within
`[0, len - 1]`. -/
theorem C9_page_navigation :
    (∀ (index : Int) (w w' : Bool),
        GuiControl.previous_page index w = max (index - 1) 0 ∧
        GuiControl.previous_page index w = GuiControl.previous_page index w') ∧
    (∀ (len : Nat) (index : Int), 0 < len → index = (len : Int) - 1 →
        GuiControl.next_page len index true = 0 ∧
        GuiControl.next_page len index false = index) ∧
    (∀ (len : Nat) (index : Int) (w : Bool), index + 1 < (len : Int) →
        GuiControl.next_page len index w = index + 1) ∧
    (∀ (len : Nat) (index : Int) (w : Bool),
        0 < len → 0 ≤ index → index < (len : Int) →
        (0 ≤ GuiControl.previous_page index w ∧
          GuiControl.previous_page index w < (len : Int)) ∧
        (0 ≤ GuiControl.next_page len index w ∧
          GuiControl.next_page len index w < (len : Int))) := by
  refine ⟨?_, ?_, ?_, ?_⟩
  · intro index w w'
    refine ⟨?_, rfl⟩
    simp only [GuiControl.previous_page]
    split_ifs <;> omega
  · intro len index h0 hlast
    have hle : (len : Int) ≤ index + 1 := by omega
    refine ⟨?_, ?_⟩
    · simp only [GuiControl.next_page]
      rw [if_pos hle]
      rfl
    · simp only [GuiControl.next_page]
      rw [if_pos hle]
      simp
      omega
  · intro len index w h
    simp only [GuiControl.next_page]
    split_ifs <;> omega
  · intro len index w h0 h1 h2
    simp only [GuiControl.previous_page, GuiControl.next_page]
    refine ⟨?_, ?_⟩ <;> constructor <;> split_ifs <;> omega

/-- Witness for C9 at concrete inputs: a six-entry list at its last index 5
wraps to 0 or stays, a middle index advances, and index 0 stays at 0 on
`previous_page`. -/
theorem C9_page_navigation_witness :
    GuiControl.next_page 6 5 true = 0 ∧ GuiControl.next_page 6 5 false = 5 ∧
    GuiControl.next_page 6 2 true = 3 ∧
    GuiControl.previous_page 0 true = max (0 - 1 : Int) 0 := by
  refine ⟨(C9_page_navigation.2.1 6 5 (by decide) (by decide)).1,
          (C9_page_navigation.2.1 6 5 (by decide) (by decide)).2,
          C9_page_navigation.2.2.1 6 2 true (by decide),
          (C9_page_navigation.1 0 true false).1⟩

/-- Claim C4: `load_pgm_list` returns exactly one tuple per line matching the
anchored pattern with leading integer at least 1, in line order, as
`(i, [0, 0, n - 1], title)` with `i` numbering the emitted tuples
consecutively from 0; every other line (including a matching line with
leading integer 0) contributes nothing. -/
theorem C4_load_pgm_list :
    ∀ lines : List (List Char),
      Setbfree.load_pgm_list lines =
        (List.enum (Setbfree.keptMatches lines)).map
          (fun p => (p.1, [0, 0, (p.2.1 : Int) - 1], p.2.2)) := by
  intro lines
  unfold Setbfree.load_pgm_list List.enum
  exact Setbfree.pgmLoop_eq_enumFrom lines 0

/-- Claim C3 counterexample: on the freshly constructed mixer `mixer0` the
controller 7 is bound nowhere (every per-channel dict is empty), so the claim
predicts a normal return leaving the table unchanged — but `midi_unlearn`
raises `TypeError` (the outer loop variable is a per-channel dict and
`self.learned_cc[chan]` subscripts the list with it). -/
theorem C3_counterexample :
    (Zynmixer.mixer0.learned_cc.all (fun d => d.isEmpty)) = true ∧
    Zynmixer.midi_unlearn Zynmixer.mixer0 7 = Except.error PyErr.typeError := by
  exact ⟨rfl, rfl⟩

/-- Claim C3 as amended: `midi_unlearn(zctrl)` never raises `RuntimeError`
and never returns normally; for every mixer state whose `learned_cc` list is
non-empty (the constructor always builds 16 per-channel dicts) and every
`zctrl` — bound or not — it raises `TypeError` before mutating anything,
because `for chan in self.learned_cc` binds `chan` to a per-channel dict and
`self.learned_cc[chan]` then subscripts a list with a dict. -/
theorem C3_midi_unlearn_always_type_error (m : Zynmixer.Mixer) (zctrl : Nat)
    (h : m.learned_cc ≠ []) :
    Zynmixer.midi_unlearn m zctrl = Except.error PyErr.typeError := by
  unfold Zynmixer.midi_unlearn
  cases hcc : m.learned_cc with
  | nil => exact absurd hcc h
  | cons d rest => rfl

/-- Witness for the amended C3 theorem at the concrete mixer `mixer0`. -/
theorem C3_amended_witness :
    Zynmixer.midi_unlearn Zynmixer.mixer0 3 = Except.error PyErr.typeError :=
  C3_midi_unlearn_always_type_error Zynmixer.mixer0 3 (by decide)

/-- Claim C8: the constructor always builds `MAX_NUM_CHANNELS + 1` channel
strips; every channel-indexed cache operation first clamps an over-range
channel down to `MAX_NUM_CHANNELS`, so the cache access stays in bounds and
an over-range channel acts on the main-bus strip (the operation behaves
exactly as if called on channel `MAX_NUM_CHANNELS`). -/
theorem C8_clamp_invariant :
    (∀ (L : Zynmixer.LibState) (m : Zynmixer.Mixer),
        Zynmixer.init (some L) = Except.ok m →
        m.zctrls.length = m.MAX_NUM_CHANNELS + 1) ∧
    (∀ (m : Zynmixer.Mixer) (c : Nat),
        Zynmixer.clampChannel m c ≤ m.MAX_NUM_CHANNELS ∧
        (m.zctrls.length = m.MAX_NUM_CHANNELS + 1 →
          Zynmixer.clampChannel m c < m.zctrls.length)) ∧
    (∀ (m : Zynmixer.Mixer) (c : Nat) (v : PVal) (u : Bool),
        m.MAX_NUM_CHANNELS ≤ c →
        Zynmixer.set_level m c v u = Zynmixer.set_level m m.MAX_NUM_CHANNELS v u ∧
        Zynmixer.set_balance m c v u = Zynmixer.set_balance m m.MAX_NUM_CHANNELS v u ∧
        Zynmixer.set_mute m c v u = Zynmixer.set_mute m m.MAX_NUM_CHANNELS v u ∧
        Zynmixer.set_solo m c v u = Zynmixer.set_solo m m.MAX_NUM_CHANNELS v u ∧
        Zynmixer.set_mono m c v u = Zynmixer.set_mono m m.MAX_NUM_CHANNELS v u ∧
        Zynmixer.set_phase m c v u = Zynmixer.set_phase m m.MAX_NUM_CHANNELS v u ∧
        Zynmixer.toggle_mute m c = Zynmixer.toggle_mute m m.MAX_NUM_CHANNELS ∧
        Zynmixer.toggle_solo m c u = Zynmixer.toggle_solo m m.MAX_NUM_CHANNELS u ∧
        Zynmixer.toggle_mono m c u = Zynmixer.toggle_mono m m.MAX_NUM_CHANNELS u ∧
        Zynmixer.toggle_phase m c u = Zynmixer.toggle_phase m m.MAX_NUM_CHANNELS u ∧
        Zynmixer.reset m c = Zynmixer.reset m m.MAX_NUM_CHANNELS) := by
  refine ⟨?_, ?_, ?_⟩
  · intro L m h
    simp only [Zynmixer.init, Except.ok.injEq] at h
    rw [← h]
    simp [Zynmixer.getMaxChannelsL]
  · intro m c
    constructor
    · unfold Zynmixer.clampChannel
      split_ifs <;> omega
    · intro hlen
      unfold Zynmixer.clampChannel
      split_ifs <;> omega
  · intro m c v u h
    have hc : Zynmixer.clampChannel m c = Zynmixer.clampChannel m m.MAX_NUM_CHANNELS := by
      unfold Zynmixer.clampChannel
      split_ifs <;> omega
    refine ⟨?_, ?_, ?_, ?_, ?_, ?_, ?_, ?_, ?_, ?_, ?_⟩ <;>
      simp only [Zynmixer.set_level, Zynmixer.set_balance, Zynmixer.set_mute,
        Zynmixer.set_solo, Zynmixer.set_mono, Zynmixer.set_phase,
        Zynmixer.toggle_mute, Zynmixer.toggle_solo, Zynmixer.toggle_mono,
        Zynmixer.toggle_phase, Zynmixer.reset, hc]

/-- Witness for C8 on the concrete mixer `mixer0` (2 channels plus main) and
the over-range channel 7. -/
theorem C8_clamp_invariant_witness :
    Zynmixer.mixer0.zctrls.length = Zynmixer.mixer0.MAX_NUM_CHANNELS + 1 ∧
    Zynmixer.clampChannel Zynmixer.mixer0 7 < Zynmixer.mixer0.zctrls.length ∧
    Zynmixer.reset Zynmixer.mixer0 7 =
      Zynmixer.reset Zynmixer.mixer0 Zynmixer.mixer0.MAX_NUM_CHANNELS :=
  ⟨C8_clamp_invariant.1 Zynmixer.lib0 Zynmixer.mixer0 Zynmixer.init_lib0,
    (C8_clamp_invariant.2.1 Zynmixer.mixer0 7).2
      (C8_clamp_invariant.1 Zynmixer.lib0 Zynmixer.mixer0 Zynmixer.init_lib0),
    (C8_clamp_invariant.2.2 Zynmixer.mixer0 7 (PVal.int 0) true (by decide)).2.2.2.2.2.2.2.2.2.2⟩

namespace Zynmixer

theorem pushCall_zctrls (m : Mixer) (c : LibCall) :
    (pushCall m c).zctrls = m.zctrls := by
  unfold pushCall
  cases m.lib <;> rfl

/-- Common frame shape of the six cache-updating setters: the marshalled
call is appended to the library trace, strip `c` is transformed by `f`, and
every other part of the mixer state is untouched. -/
theorem frame_core (m : Mixer) (L : LibState) (call : LibCall)
    (f : Strip → Strip) (c : Nat) (hlib : m.lib = some L)
    (hlen : c < m.zctrls.length) :
    libCalls { pushCall m call with
        zctrls := listModify f c (pushCall m call).zctrls } = libCalls m ++ [call] ∧
    stripAt { pushCall m call with
        zctrls := listModify f c (pushCall m call).zctrls } c = f (stripAt m c) ∧
    (∀ j, j ≠ c → stripAt { pushCall m call with
        zctrls := listModify f c (pushCall m call).zctrls } j = stripAt m j) ∧
    ({ pushCall m call with
        zctrls := listModify f c (pushCall m call).zctrls } : Mixer).learned_cc = m.learned_cc ∧
    ({ pushCall m call with
        zctrls := listModify f c (pushCall m call).zctrls } : Mixer).midi_learn_zctrl = m.midi_learn_zctrl := by
  refine ⟨?_, ?_, ?_, ?_, ?_⟩
  · simp [libCalls, pushCall, hlib]
  · simp only [stripAt, pushCall_zctrls]
    exact listModify_getD_self f c m.zctrls dummyStrip hlen
  · intro j hj
    simp only [stripAt, pushCall_zctrls]
    exact listModify_getD_ne f c j m.zctrls dummyStrip hj
  · show (pushCall m call).learned_cc = m.learned_cc
    unfold pushCall
    cases m.lib <;> rfl
  · show (pushCall m call).midi_learn_zctrl = m.midi_learn_zctrl
    unfold pushCall
    cases m.lib <;> rfl

end Zynmixer

/-- Claim C6: for every in-range channel `c` and value `v`, each setter
called with `update=True` forwards `v` to the native library, records `v` in
the cached controller for `(c, its own symbol)`, and leaves every other
cached controller — all symbols of every other strip and the other five
symbols of strip `c` — and the `learned_cc` table unchanged. -/
theorem C6_setter_frame (m : Zynmixer.Mixer) (L : Zynmixer.LibState)
    (c : Nat) (v : PVal) (hlib : m.lib = some L)
    (hlen : m.zctrls.length = m.MAX_NUM_CHANNELS + 1)
    (hc : c < m.MAX_NUM_CHANNELS) :
    (Zynmixer.libCalls (Zynmixer.set_level m c v true) =
        Zynmixer.libCalls m ++ [Zynmixer.LibCall.setLevel c v] ∧
      (Zynmixer.stripAt (Zynmixer.set_level m c v true) c).level.value = v ∧
      (Zynmixer.stripAt (Zynmixer.set_level m c v true) c).balance = (Zynmixer.stripAt m c).balance ∧
      (Zynmixer.stripAt (Zynmixer.set_level m c v true) c).mute = (Zynmixer.stripAt m c).mute ∧
      (Zynmixer.stripAt (Zynmixer.set_level m c v true) c).solo = (Zynmixer.stripAt m c).solo ∧
      (Zynmixer.stripAt (Zynmixer.set_level m c v true) c).mono = (Zynmixer.stripAt m c).mono ∧
      (Zynmixer.stripAt (Zynmixer.set_level m c v true) c).phase = (Zynmixer.stripAt m c).phase ∧
      (∀ j, j ≠ c → Zynmixer.stripAt (Zynmixer.set_level m c v true) j = Zynmixer.stripAt m j) ∧
      (Zynmixer.set_level m c v true).learned_cc = m.learned_cc ∧
      (Zynmixer.set_level m c v true).midi_learn_zctrl = m.midi_learn_zctrl) ∧
    (Zynmixer.libCalls (Zynmixer.set_balance m c v true) =
        Zynmixer.libCalls m ++ [Zynmixer.LibCall.setBalance c v] ∧
      (Zynmixer.stripAt (Zynmixer.set_balance m c v true) c).balance.value = v ∧
      (Zynmixer.stripAt (Zynmixer.set_balance m c v true) c).level = (Zynmixer.stripAt m c).level ∧
      (Zynmixer.stripAt (Zynmixer.set_balance m c v true) c).mute = (Zynmixer.stripAt m c).mute ∧
      (Zynmixer.stripAt (Zynmixer.set_balance m c v true) c).solo = (Zynmixer.stripAt m c).solo ∧
      (Zynmixer.stripAt (Zynmixer.set_balance m c v true) c).mono = (Zynmixer.stripAt m c).mono ∧
      (Zynmixer.stripAt (Zynmixer.set_balance m c v true) c).phase = (Zynmixer.stripAt m c).phase ∧
      (∀ j, j ≠ c → Zynmixer.stripAt (Zynmixer.set_balance m c v true) j = Zynmixer.stripAt m j) ∧
      (Zynmixer.set_balance m c v true).learned_cc = m.learned_cc ∧
      (Zynmixer.set_balance m c v true).midi_learn_zctrl = m.midi_learn_zctrl) ∧
    (Zynmixer.libCalls (Zynmixer.set_mute m c v true) =
        Zynmixer.libCalls m ++ [Zynmixer.LibCall.setMute c v] ∧
      (Zynmixer.stripAt (Zynmixer.set_mute m c v true) c).mute.value = v ∧
      (Zynmixer.stripAt (Zynmixer.set_mute m c v true) c).level = (Zynmixer.stripAt m c).level ∧
      (Zynmixer.stripAt (Zynmixer.set_mute m c v true) c).balance = (Zynmixer.stripAt m c).balance ∧
      (Zynmixer.stripAt (Zynmixer.set_mute m c v true) c).solo = (Zynmixer.stripAt m c).solo ∧
      (Zynmixer.stripAt (Zynmixer.set_mute m c v true) c).mono = (Zynmixer.stripAt m c).mono ∧
      (Zynmixer.stripAt (Zynmixer.set_mute m c v true) c).phase = (Zynmixer.stripAt m c).phase ∧
      (∀ j, j ≠ c → Zynmixer.stripAt (Zynmixer.set_mute m c v true) j = Zynmixer.stripAt m j) ∧
      (Zynmixer.set_mute m c v true).learned_cc = m.learned_cc ∧
      (Zynmixer.set_mute m c v true).midi_learn_zctrl = m.midi_learn_zctrl) ∧
    (Zynmixer.libCalls (Zynmixer.set_solo m c v true) =
        Zynmixer.libCalls m ++ [Zynmixer.LibCall.setSolo c v] ∧
      (Zynmixer.stripAt (Zynmixer.set_solo m c v true) c).solo.value = v ∧
      (Zynmixer.stripAt (Zynmixer.set_solo m c v true) c).level = (Zynmixer.stripAt m c).level ∧
      (Zynmixer.stripAt (Zynmixer.set_solo m c v true) c).balance = (Zynmixer.stripAt m c).balance ∧
      (Zynmixer.stripAt (Zynmixer.set_solo m c v true) c).mute = (Zynmixer.stripAt m c).mute ∧
      (Zynmixer.stripAt (Zynmixer.set_solo m c v true) c).mono = (Zynmixer.stripAt m c).mono ∧
      (Zynmixer.stripAt (Zynmixer.set_solo m c v true) c).phase = (Zynmixer.stripAt m c).phase ∧
      (∀ j, j ≠ c → Zynmixer.stripAt (Zynmixer.set_solo m c v true) j = Zynmixer.stripAt m j) ∧
      (Zynmixer.set_solo m c v true).learned_cc = m.learned_cc ∧
      (Zynmixer.set_solo m c v true).midi_learn_zctrl = m.midi_learn_zctrl) ∧
    (Zynmixer.libCalls (Zynmixer.set_mono m c v true) =
        Zynmixer.libCalls m ++ [Zynmixer.LibCall.setMono c v] ∧
      (Zynmixer.stripAt (Zynmixer.set_mono m c v true) c).mono.value = v ∧
      (Zynmixer.stripAt (Zynmixer.set_mono m c v true) c).level = (Zynmixer.stripAt m c).level ∧
      (Zynmixer.stripAt (Zynmixer.set_mono m c v true) c).balance = (Zynmixer.stripAt m c).balance ∧
      (Zynmixer.stripAt (Zynmixer.set_mono m c v true) c).mute = (Zynmixer.stripAt m c).mute ∧
      (Zynmixer.stripAt (Zynmixer.set_mono m c v true) c).solo = (Zynmixer.stripAt m c).solo ∧
      (Zynmixer.stripAt (Zynmixer.set_mono m c v true) c).phase = (Zynmixer.stripAt m c).phase ∧
      (∀ j, j ≠ c → Zynmixer.stripAt (Zynmixer.set_mono m c v true) j = Zynmixer.stripAt m j) ∧
      (Zynmixer.set_mono m c v true).learned_cc = m.learned_cc ∧
      (Zynmixer.set_mono m c v true).midi_learn_zctrl = m.midi_learn_zctrl) ∧
    (Zynmixer.libCalls (Zynmixer.set_phase m c v true) =
        Zynmixer.libCalls m ++ [Zynmixer.LibCall.setPhase c v] ∧
      (Zynmixer.stripAt (Zynmixer.set_phase m c v true) c).phase.value = v ∧
      (Zynmixer.stripAt (Zynmixer.set_phase m c v true) c).level = (Zynmixer.stripAt m c).level ∧
      (Zynmixer.stripAt (Zynmixer.set_phase m c v true) c).balance = (Zynmixer.stripAt m c).balance ∧
      (Zynmixer.stripAt (Zynmixer.set_phase m c v true) c).mute = (Zynmixer.stripAt m c).mute ∧
      (Zynmixer.stripAt (Zynmixer.set_phase m c v true) c).solo = (Zynmixer.stripAt m c).solo ∧
      (Zynmixer.stripAt (Zynmixer.set_phase m c v true) c).mono = (Zynmixer.stripAt m c).mono ∧
      (∀ j, j ≠ c → Zynmixer.stripAt (Zynmixer.set_phase m c v true) j = Zynmixer.stripAt m j) ∧
      (Zynmixer.set_phase m c v true).learned_cc = m.learned_cc ∧
      (Zynmixer.set_phase m c v true).midi_learn_zctrl = m.midi_learn_zctrl) := by
  have hc2 : ¬ (m.MAX_NUM_CHANNELS ≤ c) := Nat.not_le.mpr hc
  have hcl : c < m.zctrls.length := by omega
  have e1 : Zynmixer.set_level m c v true =
      { Zynmixer.pushCall m (Zynmixer.LibCall.setLevel c v) with
        zctrls := listModify (fun s => { s with level := Zynmixer.set_value s.level v }) c
          (Zynmixer.pushCall m (Zynmixer.LibCall.setLevel c v)).zctrls } := by
    unfold Zynmixer.set_level Zynmixer.clampChannel
    rw [if_neg hc2]
    rfl
  have e2 : Zynmixer.set_balance m c v true =
      { Zynmixer.pushCall m (Zynmixer.LibCall.setBalance c v) with
        zctrls := listModify (fun s => { s with balance := Zynmixer.set_value s.balance v }) c
          (Zynmixer.pushCall m (Zynmixer.LibCall.setBalance c v)).zctrls } := by
    unfold Zynmixer.set_balance Zynmixer.clampChannel
    rw [if_neg hc2]
    rfl
  have e3 : Zynmixer.set_mute m c v true =
      { Zynmixer.pushCall m (Zynmixer.LibCall.setMute c v) with
        zctrls := listModify (fun s => { s with mute := Zynmixer.set_value s.mute v }) c
          (Zynmixer.pushCall m (Zynmixer.LibCall.setMute c v)).zctrls } := by
    unfold Zynmixer.set_mute Zynmixer.clampChannel
    rw [if_neg hc2]
    rfl
  have e4 : Zynmixer.set_solo m c v true =
      { Zynmixer.pushCall m (Zynmixer.LibCall.setSolo c v) with
        zctrls := listModify (fun s => { s with solo := Zynmixer.set_value s.solo v }) c
          (Zynmixer.pushCall m (Zynmixer.LibCall.setSolo c v)).zctrls } := by
    unfold Zynmixer.set_solo Zynmixer.clampChannel
    rw [if_neg hc2]
    rfl
  have e5 : Zynmixer.set_mono m c v true =
      { Zynmixer.pushCall m (Zynmixer.LibCall.setMono c v) with
        zctrls := listModify (fun s => { s with mono := Zynmixer.set_value s.mono v }) c
          (Zynmixer.pushCall m (Zynmixer.LibCall.setMono c v)).zctrls } := by
    unfold Zynmixer.set_mono Zynmixer.clampChannel
    rw [if_neg hc2]
    rfl
  have e6 : Zynmixer.set_phase m c v true =
      { Zynmixer.pushCall m (Zynmixer.LibCall.setPhase c v) with
        zctrls := listModify (fun s => { s with phase := Zynmixer.set_value s.phase v }) c
          (Zynmixer.pushCall m (Zynmixer.LibCall.setPhase c v)).zctrls } := by
    unfold Zynmixer.set_phase Zynmixer.clampChannel
    rw [if_neg hc2]
    rfl
  have k1 := Zynmixer.frame_core m L (Zynmixer.LibCall.setLevel c v)
    (fun s => { s with level := Zynmixer.set_value s.level v }) c hlib hcl
  have k2 := Zynmixer.frame_core m L (Zynmixer.LibCall.setBalance c v)
    (fun s => { s with balance := Zynmixer.set_value s.balance v }) c hlib hcl
  have k3 := Zynmixer.frame_core m L (Zynmixer.LibCall.setMute c v)
    (fun s => { s with mute := Zynmixer.set_value s.mute v }) c hlib hcl
  have k4 := Zynmixer.frame_core m L (Zynmixer.LibCall.setSolo c v)
    (fun s => { s with solo := Zynmixer.set_value s.solo v }) c hlib hcl
  have k5 := Zynmixer.frame_core m L (Zynmixer.LibCall.setMono c v)
    (fun s => { s with mono := Zynmixer.set_value s.mono v }) c hlib hcl
  have k6 := Zynmixer.frame_core m L (Zynmixer.LibCall.setPhase c v)
    (fun s => { s with phase := Zynmixer.set_value s.phase v }) c hlib hcl
  refine ⟨⟨?_, ?_, ?_, ?_, ?_, ?_, ?_, ?_, ?_, ?_⟩, ⟨?_, ?_, ?_, ?_, ?_, ?_, ?_, ?_, ?_, ?_⟩,
    ⟨?_, ?_, ?_, ?_, ?_, ?_, ?_, ?_, ?_, ?_⟩, ⟨?_, ?_, ?_, ?_, ?_, ?_, ?_, ?_, ?_, ?_⟩,
    ⟨?_, ?_, ?_, ?_, ?_, ?_, ?_, ?_, ?_, ?_⟩, ⟨?_, ?_, ?_, ?_, ?_, ?_, ?_, ?_, ?_, ?_⟩⟩
  · rw [e1]; exact k1.1
  · rw [e1, k1.2.1]; rfl
  · rw [e1, k1.2.1]
  · rw [e1, k1.2.1]
  · rw [e1, k1.2.1]
  · rw [e1, k1.2.1]
  · rw [e1, k1.2.1]
  · intro j hj; rw [e1, k1.2.2.1 j hj]
  · rw [e1]; exact k1.2.2.2.1
  · rw [e1]; exact k1.2.2.2.2
  · rw [e2]; exact k2.1
  · rw [e2, k2.2.1]; rfl
  · rw [e2, k2.2.1]
  · rw [e2, k2.2.1]
  · rw [e2, k2.2.1]
  · rw [e2, k2.2.1]
  · rw [e2, k2.2.1]
  · intro j hj; rw [e2, k2.2.2.1 j hj]
  · rw [e2]; exact k2.2.2.2.1
  · rw [e2]; exact k2.2.2.2.2
  · rw [e3]; exact k3.1
  · rw [e3, k3.2.1]; rfl
  · rw [e3, k3.2.1]
  · rw [e3, k3.2.1]
  · rw [e3, k3.2.1]
  · rw [e3, k3.2.1]
  · rw [e3, k3.2.1]
  · intro j hj; rw [e3, k3.2.2.1 j hj]
  · rw [e3]; exact k3.2.2.2.1
  · rw [e3]; exact k3.2.2.2.2
  · rw [e4]; exact k4.1
  · rw [e4, k4.2.1]; rfl
  · rw [e4, k4.2.1]
  · rw [e4, k4.2.1]
  · rw [e4, k4.2.1]
  · rw [e4, k4.2.1]
  · rw [e4, k4.2.1]
  · intro j hj; rw [e4, k4.2.2.1 j hj]
  · rw [e4]; exact k4.2.2.2.1
  · rw [e4]; exact k4.2.2.2.2
  · rw [e5]; exact k5.1
  · rw [e5, k5.2.1]; rfl
  · rw [e5, k5.2.1]
  · rw [e5, k5.2.1]
  · rw [e5, k5.2.1]
  · rw [e5, k5.2.1]
  · rw [e5, k5.2.1]
  · intro j hj; rw [e5, k5.2.2.1 j hj]
  · rw [e5]; exact k5.2.2.2.1
  · rw [e5]; exact k5.2.2.2.2
  · rw [e6]; exact k6.1
  · rw [e6, k6.2.1]; rfl
  · rw [e6, k6.2.1]
  · rw [e6, k6.2.1]
  · rw [e6, k6.2.1]
  · rw [e6, k6.2.1]
  · rw [e6, k6.2.1]
  · intro j hj; rw [e6, k6.2.2.1 j hj]
  · rw [e6]; exact k6.2.2.2.1
  · rw [e6]; exact k6.2.2.2.2

/-- Witness for C6 on the concrete mixer `mixer0`, channel 0. -/
theorem C6_setter_frame_witness :
    Zynmixer.libCalls (Zynmixer.set_level Zynmixer.mixer0 0 (PVal.int 5) true) =
      Zynmixer.libCalls Zynmixer.mixer0 ++ [Zynmixer.LibCall.setLevel 0 (PVal.int 5)] ∧
    (Zynmixer.stripAt (Zynmixer.set_level Zynmixer.mixer0 0 (PVal.int 5) true) 0).level.value =
      PVal.int 5 ∧
    (Zynmixer.set_level Zynmixer.mixer0 0 (PVal.int 5) true).learned_cc =
      Zynmixer.mixer0.learned_cc :=
  ⟨(C6_setter_frame Zynmixer.mixer0 Zynmixer.lib0 0 (PVal.int 5) rfl rfl (by decide)).1.1,
    (C6_setter_frame Zynmixer.mixer0 Zynmixer.lib0 0 (PVal.int 5) rfl rfl (by decide)).1.2.1,
    (C6_setter_frame Zynmixer.mixer0 Zynmixer.lib0 0 (PVal.int 5) rfl rfl (by decide)).1.2.2.2.2.2.2.2.2.1⟩

/-- Claim C2: if a controller `z` is pending learn, the next
`midi_control_change(chan, ccnum, val)` binds `z` at
`learned_cc[chan][ccnum]` (overwriting any previous binding of that slot,
and touching no other slot), clears the pending-learn state (invoking the
registered learn callback), and does not forward `val` to any controller. -/
theorem C2_learn_binding (single : Bool) (m : Zynmixer.Mixer) (z : Nat)
    (chan : Fin 16) (ccnum : Nat) (val : PVal)
    (h : m.midi_learn_zctrl = some z) (hcc : m.learned_cc.length = 16) :
    (Zynmixer.midi_control_change single m chan ccnum val).dispatched = [] ∧
    (Zynmixer.midi_control_change single m chan ccnum val).cbInvoked = m.midi_learn_cb ∧
    (Zynmixer.midi_control_change single m chan ccnum val).mixer.midi_learn_zctrl = none ∧
    (Zynmixer.midi_control_change single m chan ccnum val).mixer.zctrls = m.zctrls ∧
    dget ((Zynmixer.midi_control_change single m chan ccnum val).mixer.learned_cc.getD
        chan.val []) ccnum = some z ∧
    (∀ (ch : Fin 16) (cc : Nat), ¬ (ch = chan ∧ cc = ccnum) →
      dget ((Zynmixer.midi_control_change single m chan ccnum val).mixer.learned_cc.getD
          ch.val []) cc =
        dget (m.learned_cc.getD ch.val []) cc) := by
  have e : Zynmixer.midi_control_change single m chan ccnum val =
      { mixer := { m with
          learned_cc := m.learned_cc.set chan.val
            (dset (m.learned_cc.getD chan.val []) ccnum z)
          midi_learn_zctrl := none }
        dispatched := []
        cbInvoked := m.midi_learn_cb } := by
    unfold Zynmixer.midi_control_change Zynmixer.disable_midi_learn
    rw [h]
  refine ⟨by rw [e], by rw [e], by rw [e], by rw [e], ?_, ?_⟩
  · rw [e]
    show dget ((m.learned_cc.set chan.val
        (dset (m.learned_cc.getD chan.val []) ccnum z)).getD chan.val []) ccnum = some z
    rw [Zynmixer.getD_set_self _ _ _ _ (by omega)]
    exact Zynmixer.dget_dset_self _ _ _
  · intro ch cc hne
    rw [e]
    show dget ((m.learned_cc.set chan.val
        (dset (m.learned_cc.getD chan.val []) ccnum z)).getD ch.val []) cc =
      dget (m.learned_cc.getD ch.val []) cc
    by_cases hch : ch = chan
    · subst hch
      rw [Zynmixer.getD_set_self _ _ _ _ (by omega)]
      exact Zynmixer.dget_dset_ne _ _ _ _ (fun e2 => hne ⟨rfl, e2⟩)
    · have hv : ch.val ≠ chan.val := fun e2 => hch (Fin.ext e2)
      rw [Zynmixer.getD_set_ne _ _ _ _ _ hv]

/-- Witness for C2: on `mixer0` with controller 13 pending learn, the CC
event on channel 3, CC 7 binds 13 there, fires the registered callback,
clears the pending state and dispatches nothing. -/
theorem C2_learn_binding_witness :
    (Zynmixer.midi_control_change false
        { Zynmixer.mixer0 with midi_learn_zctrl := some 13, midi_learn_cb := true }
        ⟨3, by decide⟩ 7 (PVal.int 5)).dispatched = [] ∧
    (Zynmixer.midi_control_change false
        { Zynmixer.mixer0 with midi_learn_zctrl := some 13, midi_learn_cb := true }
        ⟨3, by decide⟩ 7 (PVal.int 5)).cbInvoked = true ∧
    dget ((Zynmixer.midi_control_change false
        { Zynmixer.mixer0 with midi_learn_zctrl := some 13, midi_learn_cb := true }
        ⟨3, by decide⟩ 7 (PVal.int 5)).mixer.learned_cc.getD 3 []) 7 = some 13 :=
  ⟨(C2_learn_binding false
      { Zynmixer.mixer0 with midi_learn_zctrl := some 13, midi_learn_cb := true }
      13 ⟨3, by decide⟩ 7 (PVal.int 5) rfl (by rfl)).1,
    (C2_learn_binding false
      { Zynmixer.mixer0 with midi_learn_zctrl := some 13, midi_learn_cb := true }
      13 ⟨3, by decide⟩ 7 (PVal.int 5) rfl (by rfl)).2.1,
    (C2_learn_binding false
      { Zynmixer.mixer0 with midi_learn_zctrl := some 13, midi_learn_cb := true }
      13 ⟨3, by decide⟩ 7 (PVal.int 5) rfl (by rfl)).2.2.2.2.1⟩

/-- Claim C1: a CC event received while no controller is pending learn
leaves the mixer state unchanged and fires no learn callback; with
`midi_single_active_channel` set, `val` is dispatched to every controller
bound to `ccnum` on any of the 16 channels regardless of the event's
channel, and with the flag clear only to the controller bound at
`(chan, ccnum)`; nothing but `val` is ever dispatched, and an unbound slot
dispatches nothing. -/
theorem C1_cc_dispatch (single : Bool) (m : Zynmixer.Mixer) (chan : Fin 16)
    (ccnum : Nat) (val : PVal) (h : m.midi_learn_zctrl = none) :
    (Zynmixer.midi_control_change single m chan ccnum val).mixer = m ∧
    (Zynmixer.midi_control_change single m chan ccnum val).cbInvoked = false ∧
    (∀ p ∈ (Zynmixer.midi_control_change single m chan ccnum val).dispatched, p.2 = val) ∧
    (single = true → ∀ z : Nat,
      ((z, val) ∈ (Zynmixer.midi_control_change single m chan ccnum val).dispatched ↔
        ∃ ch : Fin 16, dget (m.learned_cc.getD ch.val []) ccnum = some z)) ∧
    (single = false → ∀ z : Nat,
      ((z, val) ∈ (Zynmixer.midi_control_change single m chan ccnum val).dispatched ↔
        dget (m.learned_cc.getD chan.val []) ccnum = some z)) := by
  cases single with
  | true =>
      have e : Zynmixer.midi_control_change true m chan ccnum val =
          { mixer := m
            dispatched := (List.range 16).filterMap (fun ch =>
              (dget (m.learned_cc.getD ch []) ccnum).map (fun z => (z, val)))
            cbInvoked := false } := by
        unfold Zynmixer.midi_control_change
        rw [h]
        rfl
      refine ⟨by rw [e], by rw [e], ?_, ?_, ?_⟩
      · intro p hp
        rw [e] at hp
        rcases List.mem_filterMap.mp hp with ⟨a, _, hf⟩
        rcases Option.map_eq_some'.mp hf with ⟨b, _, hbe⟩
        rw [← hbe]
      · intro _ z
        rw [e]
        constructor
        · intro hm
          rcases List.mem_filterMap.mp hm with ⟨a, ha, hf⟩
          rcases Option.map_eq_some'.mp hf with ⟨b, hb, hbe⟩
          have hz : b = z := by
            injection hbe with h1 h2
          exact ⟨⟨a, List.mem_range.mp ha⟩, hz ▸ hb⟩
        · rintro ⟨ch, hd⟩
          exact List.mem_filterMap.mpr
            ⟨ch.val, List.mem_range.mpr ch.isLt, by rw [hd]; rfl⟩
      · intro hfalse
        simp at hfalse
  | false =>
      have e : Zynmixer.midi_control_change false m chan ccnum val =
          { mixer := m
            dispatched :=
              match dget (m.learned_cc.getD chan.val []) ccnum with
              | some z => [(z, val)]
              | none => []
            cbInvoked := false } := by
        unfold Zynmixer.midi_control_change
        rw [h]
        rfl
      refine ⟨by rw [e], by rw [e], ?_, ?_, ?_⟩
      · intro p hp
        rw [e] at hp
        cases hd : dget (m.learned_cc.getD chan.val []) ccnum with
        | some b =>
            rw [hd] at hp
            simp only [List.mem_singleton] at hp
            rw [hp]
        | none =>
            rw [hd] at hp
            simp at hp
      · intro htrue
        simp at htrue
      · intro _ z
        rw [e]
        cases hd : dget (m.learned_cc.getD chan.val []) ccnum with
        | some b =>
            simp only [hd, List.mem_singleton, Prod.mk.injEq, Option.some.injEq]
            constructor
            · intro hz
              rw [hz.1]
            · intro hz
              exact ⟨hz.symm, trivial⟩
        | none =>
            simp [hd]

/-- Witness for C1 on a mixer with controller 42 bound at channel 3, CC 7
and controller 99 bound at channel 5, CC 7: with the single-active-channel
flag clear, an event on channel 3 dispatches `val` to controller 42 only,
and the mixer state is unchanged. -/
theorem C1_cc_dispatch_witness :
    (Zynmixer.midi_control_change false
      { Zynmixer.mixer0 with
        learned_cc := (Zynmixer.mixer0.learned_cc.set 3 (dset [] 7 42)).set 5 (dset [] 7 99) }
      ⟨3, by decide⟩ 7 (PVal.int 9)).cbInvoked = false ∧
    ((42, PVal.int 9) ∈ (Zynmixer.midi_control_change false
      { Zynmixer.mixer0 with
        learned_cc := (Zynmixer.mixer0.learned_cc.set 3 (dset [] 7 42)).set 5 (dset [] 7 99) }
      ⟨3, by decide⟩ 7 (PVal.int 9)).dispatched ↔
      dget (((Zynmixer.mixer0.learned_cc.set 3 (dset [] 7 42)).set 5 (dset [] 7 99)).getD 3 []) 7 =
        some 42) :=
  ⟨(C1_cc_dispatch false
      { Zynmixer.mixer0 with
        learned_cc := (Zynmixer.mixer0.learned_cc.set 3 (dset [] 7 42)).set 5 (dset [] 7 99) }
      ⟨3, by decide⟩ 7 (PVal.int 9) rfl).2.1,
    (C1_cc_dispatch false
      { Zynmixer.mixer0 with
        learned_cc := (Zynmixer.mixer0.learned_cc.set 3 (dset [] 7 42)).set 5 (dset [] 7 99) }
      ⟨3, by decide⟩ 7 (PVal.int 9) rfl).2.2.2.2 rfl 42⟩

namespace Zynmixer

theorem filterMap_all_some {α β : Type} (f : α → Option β) (g : α → β)
    (hf : ∀ a, f a = some (g a)) (l : List α) : l.filterMap f = l.map g := by
  induction l with
  | nil => rfl
  | cons a as ih => simp [List.filterMap_cons, hf a, ih]

theorem snapNonempty_full (s : Strip) :
    snapNonempty (snapOfStrip true s) = true := rfl

/-- With `full = True` every channel contributes an entry, in channel
order. -/
theorem get_state_full (m : Mixer) :
    get_state m true = (List.range (get_max_channels m + 1)).map
      (fun chan => (skeyOf m chan, snapOfStrip true (m.zctrls.getD chan dummyStrip))) := by
  unfold get_state
  exact filterMap_all_some _ _ (fun chan => rfl) _

theorem find?_map_range {β : Type} (key : Nat → SKey) (g : Nat → β)
    (n i : Nat) (hi : i < n)
    (hinj : ∀ j, j < n → key j = key i → j = i) :
    ((List.range n).map (fun j => (key j, g j))).find?
      (fun e => e.1 == key i) = some (key i, g i) := by
  induction n with
  | zero => omega
  | succ n ih =>
      rw [List.range_succ, List.map_append, List.find?_append]
      by_cases hin : i < n
      · rw [ih hin (fun j hj he => hinj j (by omega) he)]
        rfl
      · have hie : i = n := by omega
        subst hie
        have hnone : ((List.range i).map (fun j => (key j, g j))).find?
            (fun e => e.1 == key i) = none := by
          rw [List.find?_eq_none]
          intro x hx
          rcases List.mem_map.mp hx with ⟨j, hj, rfl⟩
          have hji : j < i := List.mem_range.mp hj
          simp only [beq_iff_eq]
          intro he
          have := hinj j (by omega) he
          omega
        rw [hnone]
        simp [List.find?]

theorem skeyOf_inj (m : Mixer) (i j : Nat) (hi : i < get_max_channels m + 1)
    (hj : j < get_max_channels m + 1) (he : skeyOf m j = skeyOf m i) : j = i := by
  unfold skeyOf at he
  by_cases h1 : j < get_max_channels m
  · by_cases h2 : i < get_max_channels m
    · rw [if_pos h1, if_pos h2] at he
      exact SKey.chan.inj he
    · rw [if_pos h1, if_neg h2] at he
      simp at he
  · by_cases h2 : i < get_max_channels m
    · rw [if_neg h1, if_pos h2] at he
      simp at he
    · omega

theorem dlookupS_get_state (m : Mixer) (i : Nat)
    (hi : i < get_max_channels m + 1) :
    dlookupS (get_state m true) (skeyOf m i) =
      some (snapOfStrip true (m.zctrls.getD i dummyStrip)) := by
  unfold dlookupS
  rw [get_state_full,
    find?_map_range (skeyOf m) (fun chan => snapOfStrip true (m.zctrls.getD chan dummyStrip))
      (get_max_channels m + 1) i hi (fun j hj he => skeyOf_inj m i j hi hj he)]
  rfl

/-- Re-applying a full snapshot of a controller to that controller is the
identity. -/
theorem applyStrip_self (s : Strip) :
    applyStrip (some (snapOfStrip true s)) true s = s := rfl

theorem setStateStrips_roundtrip (m : Mixer) (st : List (SKey × StripSnap))
    (k : Nat) (l : List Strip)
    (hlk : ∀ j, j < l.length →
      dlookupS st (skeyOf m (k + j)) =
        some (snapOfStrip true (l.getD j dummyStrip))) :
    setStateStrips m st true k l = l := by
  induction l generalizing k with
  | nil => rfl
  | cons s rest ih =>
      unfold setStateStrips
      have h0 := hlk 0 (by simp)
      simp only [Nat.add_zero, List.getD_cons_zero] at h0
      rw [h0, applyStrip_self]
      congr 1
      apply ih
      intro j hj
      have hsucc := hlk (j + 1) (by simp only [List.length_cons]; omega)
      rw [List.getD_cons_succ] at hsucc
      have hke : k + (j + 1) = k + 1 + j := by omega
      rw [hke] at hsucc
      exact hsucc

end Zynmixer

/-- Claim C5: snapshot round trip — for every mixer cache state satisfying
the constructor's shape invariant, `set_state(get_state(full=True),
full=True)` restores every cached strip controller (all six symbols of each
channel strip and the main bus) to the value it had when `get_state` was
taken; indeed it is the identity on the mixer state.  (`zynthian_controller`
is not among the sources; its value cache is modelled from the spec.) -/
theorem C5_snapshot_roundtrip (m : Zynmixer.Mixer)
    (hlen : m.zctrls.length = Zynmixer.get_max_channels m + 1) :
    Zynmixer.set_state m (Zynmixer.get_state m true) true = m := by
  unfold Zynmixer.set_state
  have hz : Zynmixer.setStateStrips m (Zynmixer.get_state m true) true 0 m.zctrls =
      m.zctrls := by
    apply Zynmixer.setStateStrips_roundtrip
    intro j hj
    have hj' : j < Zynmixer.get_max_channels m + 1 := by omega
    rw [Nat.zero_add]
    exact Zynmixer.dlookupS_get_state m j hj'
  rw [hz]

/-- Witness for C5: the round trip is checked on the concrete mixer obtained
from `mixer0` by setting the level of channel 1 to 0.5 (an off-default
cache state). -/
theorem C5_snapshot_roundtrip_witness :
    Zynmixer.set_state (Zynmixer.set_level Zynmixer.mixer0 1 (PVal.float ((1 : Rat) / 2)) true)
      (Zynmixer.get_state
        (Zynmixer.set_level Zynmixer.mixer0 1 (PVal.float ((1 : Rat) / 2)) true) true) true =
      Zynmixer.set_level Zynmixer.mixer0 1 (PVal.float ((1 : Rat) / 2)) true :=
  C5_snapshot_roundtrip
    (Zynmixer.set_level Zynmixer.mixer0 1 (PVal.float ((1 : Rat) / 2)) true) (by rfl)
